import Mathlib

/-!
Verification of the agent control-plane API (control-plane/api/main.py).

The service is a multi-tenant FastAPI application over a relational store.
Identifiers (UUID values in the source) are modelled as natural numbers;
status enumerations travel as the literal strings the SQL uses.  JSON bundle
fields of a version (model_bundle, prompt_bundle, tool_manifest,
data_scopes_declared, build_provenance) and the score/limit payloads of
evaluation runs and policies are opaque blobs never consulted by any control
logic, so they are elided from the rows.  Each SQL statement issued by a
handler becomes an atomic operation on an explicit `Store` value; the
row-level security policy that the database applies to every statement is
modelled from the specification, as noted on the definitions below.
-/

/-- One row of `agent_templates`. -/
structure TemplateRow where
  template_id : Nat
  tenant_id : Nat
  name : String
  deriving Repr, DecidableEq

/-- One row of `agent_versions`. -/
structure VersionRow where
  version_id : Nat
  template_id : Nat
  tenant_id : Nat
  version_label : String
  artifact_hash : String
  release_status : String
  deriving Repr, DecidableEq

/-- One row of `evaluation_runs` (written only by the external evaluation
collaborator; this core reads it). -/
structure EvalRunRow where
  version_id : Nat
  status : String
  completed_at : Nat
  deriving Repr, DecidableEq

/-- The payload the promote handler attaches to its event:
a dictionary with keys version_id, from and to. -/
structure PromotePayload where
  version_id : Nat
  from_status : String
  to_status : String
  deriving Repr, DecidableEq

/-- One row of `events`. -/
structure EventRow where
  tenant_id : Nat
  event_type : String
  actor_type : String
  actor_id : Nat
  payload : PromotePayload
  deriving Repr, DecidableEq

/-- One row of `agent_instances`. -/
structure InstanceRow where
  instance_id : Nat
  version_id : Nat
  tenant_id : Nat
  environment : String
  policy_envelope_id : Nat
  status : String
  deriving Repr, DecidableEq

/-- One row of `policy_envelopes`. -/
structure PolicyRow where
  policy_id : Nat
  tenant_id : Nat
  name : String
  autonomy_tier : Nat
  deriving Repr, DecidableEq

/-- The relational store the handlers operate on. -/
structure Store where
  templates : List TemplateRow
  versions : List VersionRow
  evaluation_runs : List EvalRunRow
  instances : List InstanceRow
  policies : List PolicyRow
  events : List EventRow
  deriving Repr, DecidableEq

/-- An HTTPException surfaced to the caller: status code plus detail
message. -/
structure ApiError where
  code : Nat
  message : String
  deriving Repr, DecidableEq

/-- Equality of handler results is decidable componentwise. -/
instance exceptDecEq {α β : Type} [DecidableEq α] [DecidableEq β] :
    DecidableEq (Except α β) := fun x y =>
  match x, y with
  | Except.ok a, Except.ok b =>
    if h : a = b then isTrue (by rw [h])
    else isFalse (fun hc => h (Except.noConfusion hc id))
  | Except.error a, Except.error b =>
    if h : a = b then isTrue (by rw [h])
    else isFalse (fun hc => h (Except.noConfusion hc id))
  | Except.ok _, Except.error _ => isFalse (fun hc => Except.noConfusion hc)
  | Except.error _, Except.ok _ => isFalse (fun hc => Except.noConfusion hc)

/-- Modelled from the spec: the row-level security policy keyed on the
session variable app.current_tenant (set by `get_current_tenant`; the
policy itself lives in the database schema, outside the application
source) confines every statement on `agent_templates` to the bound
tenant. -/
def visible_templates (tenant : Nat) (s : Store) : List TemplateRow :=
  s.templates.filter (fun t => t.tenant_id == tenant)

/-- Modelled from the spec: row-level security on `agent_versions`. -/
def visible_versions (tenant : Nat) (s : Store) : List VersionRow :=
  s.versions.filter (fun v => v.tenant_id == tenant)

/-- Modelled from the spec: row-level security on `agent_instances`. -/
def visible_instances (tenant : Nat) (s : Store) : List InstanceRow :=
  s.instances.filter (fun i => i.tenant_id == tenant)

/-- Modelled from the spec: row-level security on `policy_envelopes`. -/
def visible_policies (tenant : Nat) (s : Store) : List PolicyRow :=
  s.policies.filter (fun p => p.tenant_id == tenant)

/-- The rows the promote gate query ranges over:
SELECT .. FROM evaluation_runs WHERE version_id = :vid AND status = :passed.
The query orders by completed_at descending and fetches a single row, but
the handler only tests whether a row came back, so the ordering never
influences control flow. -/
def passing_evals (s : Store) (vid : Nat) : List EvalRunRow :=
  s.evaluation_runs.filter (fun r => r.version_id == vid && r.status == "passed")

/-- UPDATE agent_versions SET release_status = :st WHERE version_id = :vid,
executed under the row-security scope of the bound tenant. -/
def set_release_status (tenant vid : Nat) (st : String) (s : Store) : Store :=
  { s with versions := s.versions.map (fun v =>
      if v.version_id == vid && v.tenant_id == tenant then
        { v with release_status := st } else v) }

/-- INSERT INTO events (tenant_id, event_type, actor_type, actor_id, payload)
VALUES (:tid, :AgentVersionPromoted, :system, :tid, :payload) as issued by the
promote handler. -/
def insert_promoted_event (tenant vid : Nat) (s : Store) : Store :=
  { s with events := s.events ++
      [{ tenant_id := tenant, event_type := "AgentVersionPromoted",
         actor_type := "system", actor_id := tenant,
         payload := { version_id := vid, from_status := "candidate",
                      to_status := "approved" } }] }

/-- The AgentVersionPromoted events recorded for a given version. -/
def promoted_events_for (s : Store) (vid : Nat) : List EventRow :=
  s.events.filter (fun e =>
    e.event_type == "AgentVersionPromoted" && e.payload.version_id == vid)

/-- The two failure responses of the promote handler. -/
def precondition_failed_err : ApiError :=
  { code := 400, message := "Version must be in candidate status" }

/-- Failure of the evaluation gate inside the promote handler. -/
def gate_failed_err : ApiError :=
  { code := 400, message := "No passing evaluation found" }

/-- The promote handler (POST /v1/versions/:id/promote): read the release
status, require candidate, require a passing evaluation run, then set the
status to approved and emit the audit event.  Returns the response (or the
HTTPException) together with the final committed store. -/
def promote_version (tenant vid : Nat) (s : Store) :
    Except ApiError (Nat × String) × Store :=
  match (visible_versions tenant s).find? (fun v => v.version_id == vid) with
  | none => (Except.error precondition_failed_err, s)
  | some v =>
    if v.release_status ≠ "candidate" then
      (Except.error precondition_failed_err, s)
    else if passing_evals s vid = [] then
      (Except.error gate_failed_err, s)
    else
      (Except.ok (vid, "approved"),
        insert_promoted_event tenant vid (set_release_status tenant vid "approved" s))

/-- The committed store states observable while one promote call runs: the
handler commits the release-status UPDATE and the event INSERT separately,
so a successful call exposes the intermediate state between the two
commits.  Failed calls leave the store untouched. -/
def promote_commit_states (tenant vid : Nat) (s : Store) : List Store :=
  match (visible_versions tenant s).find? (fun v => v.version_id == vid) with
  | none => [s]
  | some v =>
    if v.release_status ≠ "candidate" then [s]
    else if passing_evals s vid = [] then [s]
    else
      [s, set_release_status tenant vid "approved" s,
       insert_promoted_event tenant vid (set_release_status tenant vid "approved" s)]

/-!
The identity resolver (`get_current_tenant`): extracts the tenant identifier
from the Authorization header.  jwt.decode is an external library call; its
outcome on the presented token is modelled by a `TokenDecode` oracle.  The
only statement the resolver issues to the store is SET LOCAL
app.current_tenant, and only after a tenant id was extracted, so the
resolver also reports the list of store statements it issued.
-/

/-- The outcome of jwt.decode (signature verification disabled) on a token:
either the decoder raises, or it yields a claims object whose tenant_id
field may be absent. -/
inductive TokenDecode where
  | failure (err : String)
  | claims (tenant_id : Option String)
  deriving Repr, DecidableEq

/-- A statement issued to the backing store by the identity resolver. -/
inductive StoreStmt where
  | set_local_tenant (tenant : String)
  deriving Repr, DecidableEq

/-- Python str.split restricted to a one-character separator, on the
character list of the string: consecutive separators yield empty fields and
a trailing separator yields a trailing empty field. -/
def splitOnChar (sep : Char) : List Char → List (List Char)
  | [] => [[]]
  | c :: cs =>
    match splitOnChar sep cs with
    | [] => [[]]
    | w :: ws => if c = sep then [] :: w :: ws else (c :: w) :: ws

/-- authorization.startswith applied to the Bearer marker. -/
def has_bearer_marker (a : String) : Bool :=
  "Bearer ".data.isPrefixOf a.data

/-- The token field of the header: authorization.split on spaces, field
one. -/
def bearer_token (a : String) : String :=
  String.mk (((splitOnChar ' ' a.data).drop 1).headD [])

/-- `get_current_tenant`: reject a missing or non-Bearer Authorization
header; split the header on spaces and decode the second field; on any
decoder exception, or a missing or empty tenant_id claim (the source tests
the claim for Python falsiness, so the empty string is also rejected, and
the inner HTTPException for a missing claim is itself caught by the
enclosing except block and re-wrapped), reject with 401; otherwise issue
SET LOCAL app.current_tenant and return the tenant id.  The result is
paired with the store statements the call issued. -/
def get_current_tenant (authorization : Option String)
    (decode : String → TokenDecode) :
    Except ApiError String × List StoreStmt :=
  match authorization with
  | none => (Except.error { code := 401, message := "Missing or invalid authorization" }, [])
  | some auth =>
    if ¬ has_bearer_marker auth then
      (Except.error { code := 401, message := "Missing or invalid authorization" }, [])
    else
      match decode (bearer_token auth) with
      | TokenDecode.failure e =>
          (Except.error { code := 401, message := "Invalid token: " ++ e }, [])
      | TokenDecode.claims none =>
          (Except.error { code := 401,
                          message := "Invalid token: 401: Token missing tenant_id" }, [])
      | TokenDecode.claims (some tid) =>
          if tid = "" then
            (Except.error { code := 401,
                            message := "Invalid token: 401: Token missing tenant_id" }, [])
          else
            (Except.ok tid, [StoreStmt.set_local_tenant tid])

/-!
Entity read handlers.  The SQL carries no tenant predicate; confinement to
the caller comes entirely from the row-security scope (the `visible_*`
functions above).  The ORDER BY created_at DESC clause of the list queries
only arranges the rows for presentation and is elided.
-/

/-- GET /v1/templates: list the rows the statement can see. -/
def list_templates (tenant : Nat) (s : Store) : List TemplateRow :=
  visible_templates tenant s

/-- Failure response of GET /v1/versions/:id. -/
def version_not_found_err : ApiError := { code := 404, message := "Version not found" }

/-- GET /v1/versions/:id: SELECT .. FROM agent_versions WHERE
version_id = :version_id, then 404 when no row came back. -/
def get_version (tenant vid : Nat) (s : Store) : Except ApiError VersionRow :=
  match (visible_versions tenant s).find? (fun v => v.version_id == vid) with
  | none => Except.error version_not_found_err
  | some v => Except.ok v

/-- GET /v1/instances: agent_instances joined with agent_versions and
agent_templates; the join keys are primary keys, realised with find?.
Each entry carries the instance row with the joined version label and
template name. -/
def list_instances (tenant : Nat) (s : Store) :
    List (InstanceRow × String × String) :=
  (visible_instances tenant s).filterMap (fun i =>
    match (visible_versions tenant s).find? (fun v => v.version_id == i.version_id) with
    | none => none
    | some v =>
      match (visible_templates tenant s).find? (fun t => t.template_id == v.template_id) with
      | none => none
      | some t => some (i, v.version_label, t.name))

/-- GET /v1/policies. -/
def list_policies (tenant : Nat) (s : Store) : List PolicyRow :=
  visible_policies tenant s

/-- Failure response of GET /v1/policies/:id. -/
def policy_not_found_err : ApiError := { code := 404, message := "Policy not found" }

/-- GET /v1/policies/:id. -/
def get_policy (tenant pid : Nat) (s : Store) : Except ApiError PolicyRow :=
  match (visible_policies tenant s).find? (fun p => p.policy_id == pid) with
  | none => Except.error policy_not_found_err
  | some p => Except.ok p

/-!
Version creation.  The handler inserts the row directly; it performs no
existence check on the template id and wraps the insert in no exception
handler, so a store-level rejection propagates out of the handler and
FastAPI surfaces it as a generic 500 Internal Server Error response.
-/

/-- The response FastAPI produces for an exception no handler caught. -/
def internal_server_error : ApiError :=
  { code := 500, message := "Internal Server Error" }

/-- Modelled from the spec: the schema constraints on `agent_versions`
(the foreign key to `agent_templates` combined with the tenant row-security
scope; both live in the database schema, outside the application source)
reject an INSERT whose template id has no row visible to the bound
tenant. -/
def store_insert_version (tenant : Nat) (row : VersionRow) (s : Store) :
    Option Store :=
  if (visible_templates tenant s).any (fun t => t.template_id == row.template_id) then
    some { s with versions := s.versions ++ [row] }
  else
    none

/-- POST /v1/templates/:template_id/versions: insert the new row with
release_status draft.  `vid` stands for the uuid4 value the handler
draws. -/
def create_version (tenant template_id vid : Nat)
    (version_label artifact_hash : String) (s : Store) :
    Except ApiError (Nat × String) × Store :=
  let row : VersionRow :=
    { version_id := vid, template_id := template_id, tenant_id := tenant,
      version_label := version_label, artifact_hash := artifact_hash,
      release_status := "draft" }
  match store_insert_version tenant row s with
  | some s2 => (Except.ok (vid, "draft"), s2)
  | none => (Except.error internal_server_error, s)

/-- PATCH /v1/instances/:id: UPDATE agent_instances SET status = :status
WHERE instance_id = :iid under the row-security scope, then echo the
requested status back.  No row need match the UPDATE. -/
def update_instance (tenant iid : Nat) (status : String) (s : Store) :
    (Nat × String) × Store :=
  ((iid, status),
    { s with instances := s.instances.map (fun i =>
        if i.instance_id == iid && i.tenant_id == tenant then
          { i with status := status } else i) })

/-!
Concurrent execution of the promote handler.  Each SQL statement of the
handler is one atomic step against the shared store; two workers running
the handler for the same version may interleave their steps.  The program
counter records where a worker stands.
-/

/-- The terminal outcome of one promote worker. -/
inductive PromoteOutcome where
  | ok
  | precondition
  | gate
  deriving Repr, DecidableEq

/-- Program counter of a promote worker: before the status SELECT, before
the evaluation SELECT, before the UPDATE commit, before the event INSERT
commit, or finished. -/
inductive PromotePC where
  | start
  | checkEval
  | writeStatus
  | writeEvent
  | finished (r : PromoteOutcome)
  deriving Repr, DecidableEq

/-- One atomic statement of the promote handler, at the granularity the
source commits: the status read, the evaluation read, the UPDATE plus
commit, and the event INSERT plus commit. -/
def promote_step (tenant vid : Nat) : PromotePC → Store → PromotePC × Store
  | PromotePC.start, s =>
    (match (visible_versions tenant s).find? (fun v => v.version_id == vid) with
     | none => (PromotePC.finished PromoteOutcome.precondition, s)
     | some v =>
       if v.release_status ≠ "candidate" then
         (PromotePC.finished PromoteOutcome.precondition, s)
       else (PromotePC.checkEval, s))
  | PromotePC.checkEval, s =>
    if passing_evals s vid = [] then (PromotePC.finished PromoteOutcome.gate, s)
    else (PromotePC.writeStatus, s)
  | PromotePC.writeStatus, s =>
    (PromotePC.writeEvent, set_release_status tenant vid "approved" s)
  | PromotePC.writeEvent, s =>
    (PromotePC.finished PromoteOutcome.ok, insert_promoted_event tenant vid s)
  | PromotePC.finished r, s => (PromotePC.finished r, s)

/-- Run two promote workers for the same version under a schedule: `true`
steps the first worker, `false` the second. -/
def run_sched (tenant vid : Nat) :
    List Bool → PromotePC × PromotePC × Store → PromotePC × PromotePC × Store
  | [], st => st
  | b :: rest, (p1, p2, s) =>
    if b then
      let (p1', s') := promote_step tenant vid p1 s
      run_sched tenant vid rest (p1', p2, s')
    else
      let (p2', s') := promote_step tenant vid p2 s
      run_sched tenant vid rest (p1, p2', s')

/-!
Concrete fixtures used to evaluate the definitions.
-/

/-- A template of tenant 1. -/
def sample_template : TemplateRow :=
  { template_id := 100, tenant_id := 1, name := "alpha" }

/-- A candidate version of tenant 1 under `sample_template`. -/
def sample_version : VersionRow :=
  { version_id := 10, template_id := 100, tenant_id := 1,
    version_label := "v1", artifact_hash := "h1", release_status := "candidate" }

/-- A passing evaluation run for `sample_version`. -/
def sample_eval : EvalRunRow :=
  { version_id := 10, status := "passed", completed_at := 5 }

/-- An instance of tenant 1. -/
def sample_instance : InstanceRow :=
  { instance_id := 30, version_id := 10, tenant_id := 1,
    environment := "prod", policy_envelope_id := 40, status := "active" }

/-- A policy envelope of tenant 1. -/
def sample_policy : PolicyRow :=
  { policy_id := 40, tenant_id := 1, name := "default", autonomy_tier := 2 }

/-- A store holding the tenant-1 fixtures: version 10 is a candidate with a
passing evaluation and no prior events. -/
def sample_store : Store :=
  { templates := [sample_template], versions := [sample_version],
    evaluation_runs := [sample_eval], instances := [sample_instance],
    policies := [sample_policy], events := [] }

/-- A template of tenant 2. -/
def other_template : TemplateRow :=
  { template_id := 200, tenant_id := 2, name := "beta" }

/-- A version of tenant 2. -/
def other_version : VersionRow :=
  { version_id := 20, template_id := 200, tenant_id := 2,
    version_label := "w1", artifact_hash := "h2", release_status := "draft" }

/-- An instance of tenant 2. -/
def other_instance : InstanceRow :=
  { instance_id := 31, version_id := 20, tenant_id := 2,
    environment := "prod", policy_envelope_id := 41, status := "active" }

/-- A policy envelope of tenant 2. -/
def other_policy : PolicyRow :=
  { policy_id := 41, tenant_id := 2, name := "strict", autonomy_tier := 1 }

/-- A store populated by two distinct tenants. -/
def two_tenant_store : Store :=
  { templates := [sample_template, other_template],
    versions := [sample_version, other_version],
    evaluation_runs := [sample_eval],
    instances := [sample_instance, other_instance],
    policies := [sample_policy, other_policy], events := [] }

/-- A decode oracle standing for jwt.decode raising on an undecodable
token; the string is a representative exception message of the jwt
library. -/
def failing_decode : String → TokenDecode :=
  fun _ => TokenDecode.failure "Invalid crypto padding"

/-- The interleaving in which both workers pass the status and evaluation
reads before either performs a write. -/
def race_schedule : List Bool :=
  [true, false, true, false, true, false, true, false]

/-!
Helper lemmas.
-/

/-- Under unique version ids, the status SELECT of the promote handler
finds exactly the caller-owned row with the requested id. -/
theorem find_visible_version (tenant vid : Nat) (s : Store) (vr : VersionRow)
    (hmem : vr ∈ s.versions) (hid : vr.version_id = vid) (ht : vr.tenant_id = tenant)
    (hu : ∀ w ∈ s.versions, w.version_id = vid → w = vr) :
    (visible_versions tenant s).find? (fun v => v.version_id == vid) = some vr := by
  cases hfind : (visible_versions tenant s).find? (fun v => v.version_id == vid) with
  | none =>
    exfalso
    have hvis : vr ∈ visible_versions tenant s := by
      unfold visible_versions
      exact List.mem_filter.mpr ⟨hmem, by simp [ht]⟩
    have hnone := List.find?_eq_none.mp hfind vr hvis
    simp [hid] at hnone
  | some w =>
    have hw := List.find?_some hfind
    have hwmem : w ∈ visible_versions tenant s := List.mem_of_find?_eq_some hfind
    have hwmem2 : w ∈ s.versions := by
      have h2 : w ∈ s.versions ∧ w.tenant_id = tenant := by
        simpa [visible_versions, List.mem_filter] using hwmem
      exact h2.1
    have hwid : w.version_id = vid := by simpa using hw
    rw [hu w hwmem2 hwid]

/-- The UPDATE of the promote handler sets the status of every row it can
reach that carries the requested version id. -/
theorem set_release_status_sets (tenant vid : Nat) (st : String) (s : Store) :
    ∀ w ∈ (set_release_status tenant vid st s).versions,
      w.version_id = vid → w.tenant_id = tenant → w.release_status = st := by
  intro w hw hwid hwt
  unfold set_release_status at hw
  simp only [List.mem_map] at hw
  obtain ⟨u, hu, heq⟩ := hw
  by_cases hc : (u.version_id == vid && u.tenant_id == tenant) = true
  · rw [if_pos hc] at heq
    rw [← heq]
  · rw [if_neg hc] at heq
    subst heq
    simp [hwid, hwt] at hc

/-- C1: for a version owned by the calling tenant, promote succeeds exactly
when the release status is candidate and a passing evaluation run exists;
a wrong status yields the precondition failure, a satisfied status with no
passing evaluation yields the gate failure, and both failures leave the
store, hence the release status, unchanged. -/
theorem promote_succeeds_iff (tenant vid : Nat) (s : Store) (vr : VersionRow)
    (hmem : vr ∈ s.versions) (hid : vr.version_id = vid) (ht : vr.tenant_id = tenant)
    (hu : ∀ w ∈ s.versions, w.version_id = vid → w = vr) :
    ((promote_version tenant vid s).1.isOk = true ↔
       (vr.release_status = "candidate" ∧ passing_evals s vid ≠ []))
    ∧ (vr.release_status ≠ "candidate" →
        promote_version tenant vid s = (Except.error precondition_failed_err, s))
    ∧ (vr.release_status = "candidate" → passing_evals s vid = [] →
        promote_version tenant vid s = (Except.error gate_failed_err, s)) := by
  have hfind := find_visible_version tenant vid s vr hmem hid ht hu
  unfold promote_version
  rw [hfind]
  by_cases hc : vr.release_status = "candidate"
  · by_cases hg : passing_evals s vid = []
    · simp [hc, hg, Except.isOk, Except.toBool]
    · simp [hc, hg, Except.isOk, Except.toBool]
  · simp [hc, Except.isOk, Except.toBool]

/-- C1 witness: on the sample store the hypotheses hold and promote
succeeds. -/
theorem promote_succeeds_iff_witness :
    sample_version ∈ sample_store.versions
    ∧ sample_version.tenant_id = 1
    ∧ (promote_version 1 10 sample_store).1.isOk = true :=
  ⟨by decide, by decide,
   ((promote_succeeds_iff 1 10 sample_store sample_version (by decide) (by decide)
       (by decide) (by decide)).1).mpr (by decide)⟩

/-- C2: with globally unique version and policy ids, a row created by one
tenant is never returned by a list or get handler authenticated as a
different tenant, and a get on a cross-tenant id produces the same
NotFound response as a get on an id no row carries. -/
theorem tenant_isolation (t1 t2 : Nat) (s : Store) (hne : t1 ≠ t2)
    (hv : ∀ v ∈ s.versions, ∀ w ∈ s.versions, v.version_id = w.version_id → v = w)
    (hp : ∀ p ∈ s.policies, ∀ q ∈ s.policies, p.policy_id = q.policy_id → p = q) :
    (∀ tr ∈ s.templates, tr.tenant_id = t1 → tr ∉ list_templates t2 s)
    ∧ (∀ vr ∈ s.versions, vr.tenant_id = t1 →
        get_version t2 vr.version_id s = Except.error version_not_found_err)
    ∧ (∀ vid : Nat, (∀ vr ∈ s.versions, vr.version_id ≠ vid) →
        get_version t2 vid s = Except.error version_not_found_err)
    ∧ (∀ ir ∈ s.instances, ir.tenant_id = t1 →
        ∀ entry ∈ list_instances t2 s, entry.1 ≠ ir)
    ∧ (∀ pr ∈ s.policies, pr.tenant_id = t1 → pr ∉ list_policies t2 s)
    ∧ (∀ pr ∈ s.policies, pr.tenant_id = t1 →
        get_policy t2 pr.policy_id s = Except.error policy_not_found_err) := by
  refine ⟨?_, ?_, ?_, ?_, ?_, ?_⟩
  · intro tr _ ht1 habs
    have h2 : tr ∈ s.templates ∧ tr.tenant_id = t2 := by
      simpa [list_templates, visible_templates, List.mem_filter] using habs
    exact hne (ht1 ▸ h2.2)
  · intro vr hvr ht1
    unfold get_version
    cases hfind : (visible_versions t2 s).find? (fun v => v.version_id == vr.version_id) with
    | none => rfl
    | some w =>
      exfalso
      have hw := List.find?_some hfind
      have hwmem : w ∈ visible_versions t2 s := List.mem_of_find?_eq_some hfind
      have h2 : w ∈ s.versions ∧ w.tenant_id = t2 := by
        simpa [visible_versions, List.mem_filter] using hwmem
      have hwid : w.version_id = vr.version_id := by simpa using hw
      have hwv : w = vr := hv w h2.1 vr hvr hwid
      exact hne (ht1 ▸ hwv ▸ h2.2)
  · intro vid hnone
    unfold get_version
    have hfind : (visible_versions t2 s).find? (fun v => v.version_id == vid) = none := by
      refine List.find?_eq_none.mpr ?_
      intro x hx
      have h2 : x ∈ s.versions ∧ x.tenant_id = t2 := by
        simpa [visible_versions, List.mem_filter] using hx
      simpa using hnone x h2.1
    rw [hfind]
  · intro ir _ ht1 entry hentry heq
    have hmem := List.mem_filterMap.mp hentry
    obtain ⟨i, hi, hfi⟩ := hmem
    have h2 : i ∈ s.instances ∧ i.tenant_id = t2 := by
      simpa [visible_instances, List.mem_filter] using hi
    split at hfi
    · exact absurd hfi (by simp)
    · split at hfi
      · exact absurd hfi (by simp)
      · simp only [Option.some.injEq] at hfi
        have hfst : entry.1 = i := by rw [← hfi]
        rw [heq] at hfst
        exact hne (ht1 ▸ hfst ▸ h2.2)
  · intro pr _ ht1 habs
    have h2 : pr ∈ s.policies ∧ pr.tenant_id = t2 := by
      simpa [list_policies, visible_policies, List.mem_filter] using habs
    exact hne (ht1 ▸ h2.2)
  · intro pr hpr ht1
    unfold get_policy
    cases hfind : (visible_policies t2 s).find? (fun p => p.policy_id == pr.policy_id) with
    | none => rfl
    | some q =>
      exfalso
      have hq := List.find?_some hfind
      have hqmem : q ∈ visible_policies t2 s := List.mem_of_find?_eq_some hfind
      have h2 : q ∈ s.policies ∧ q.tenant_id = t2 := by
        simpa [visible_policies, List.mem_filter] using hqmem
      have hqid : q.policy_id = pr.policy_id := by simpa using hq
      have hqp : q = pr := hp q h2.1 pr hpr hqid
      exact hne (ht1 ▸ hqp ▸ h2.2)

/-- C2 witness: on the two-tenant store, tenant 2 sees none of the
tenant-1 rows and gets the NotFound response on the tenant-1 version
id. -/
theorem tenant_isolation_witness :
    (1 : Nat) ≠ 2
    ∧ sample_template ∉ list_templates 2 two_tenant_store
    ∧ get_version 2 sample_version.version_id two_tenant_store
        = Except.error version_not_found_err
    ∧ sample_policy ∉ list_policies 2 two_tenant_store :=
  ⟨by decide,
   (tenant_isolation 1 2 two_tenant_store (by decide) (by decide) (by decide)).1
     sample_template (by decide) (by decide),
   (tenant_isolation 1 2 two_tenant_store (by decide) (by decide) (by decide)).2.1
     sample_version (by decide) (by decide),
   (tenant_isolation 1 2 two_tenant_store (by decide) (by decide) (by decide)).2.2.2.2.1
     sample_policy (by decide) (by decide)⟩

/-- C3: the promote handler commits the release-status UPDATE and the
event INSERT as two separate transactions, so on a successful promote the
store passes through a committed state in which the version already reads
approved while no AgentVersionPromoted event exists for it. -/
theorem promote_audit_gap :
    (promote_version 1 10 sample_store).1 = Except.ok (10, "approved")
    ∧ set_release_status 1 10 "approved" sample_store
        ∈ promote_commit_states 1 10 sample_store
    ∧ get_version 1 10 (set_release_status 1 10 "approved" sample_store)
        = Except.ok { sample_version with release_status := "approved" }
    ∧ promoted_events_for (set_release_status 1 10 "approved" sample_store) 10 = [] := by
  decide

/-- A successful promote call is exactly the status write followed by the
event insert. -/
theorem promote_version_ok_eq (tenant vid : Nat) (s : Store)
    (hok : (promote_version tenant vid s).1.isOk = true) :
    promote_version tenant vid s =
      (Except.ok (vid, "approved"),
       insert_promoted_event tenant vid (set_release_status tenant vid "approved" s)) := by
  unfold promote_version at hok ⊢
  cases hfind : (visible_versions tenant s).find? (fun v => v.version_id == vid) with
  | none =>
    rw [hfind] at hok
    simp [Except.isOk, Except.toBool] at hok
  | some v =>
    rw [hfind] at hok
    by_cases hc : v.release_status = "candidate"
    · by_cases hg : passing_evals s vid = []
      · simp [hc, hg, Except.isOk, Except.toBool] at hok
      · simp [hc, hg]
    · simp [hc, Except.isOk, Except.toBool] at hok

/-- C4: a successful promote appends exactly one AgentVersionPromoted
event for the version (provided none was recorded before, which only this
handler ever does for a candidate version), the event payload names the
version with from candidate and to approved, and every caller-owned row
carrying the version id now reads approved. -/
theorem promote_records_one_event (tenant vid : Nat) (s : Store)
    (hok : (promote_version tenant vid s).1.isOk = true)
    (hpre : promoted_events_for s vid = []) :
    (promoted_events_for (promote_version tenant vid s).2 vid).length = 1
    ∧ (∀ e ∈ promoted_events_for (promote_version tenant vid s).2 vid,
        e.payload = { version_id := vid, from_status := "candidate",
                      to_status := "approved" })
    ∧ (∀ w ∈ (promote_version tenant vid s).2.versions,
        w.version_id = vid → w.tenant_id = tenant →
          w.release_status = "approved") := by
  have heq := promote_version_ok_eq tenant vid s hok
  rw [heq]
  have hpre2 : s.events.filter (fun e =>
      e.event_type == "AgentVersionPromoted" && e.payload.version_id == vid) = [] := hpre
  refine ⟨?_, ?_, ?_⟩
  · simp [promoted_events_for, insert_promoted_event, set_release_status,
          List.filter_append, hpre2]
  · intro e he
    have he2 : e = ({ tenant_id := tenant, event_type := "AgentVersionPromoted",
                      actor_type := "system", actor_id := tenant,
                      payload := { version_id := vid, from_status := "candidate",
                                   to_status := "approved" } } : EventRow) := by
      simpa [promoted_events_for, insert_promoted_event, set_release_status,
             List.filter_append, hpre2] using he
    rw [he2]
  · intro w hw hwid hwt
    exact set_release_status_sets tenant vid "approved" s w hw hwid hwt

/-- C4 witness: on the sample store the promote succeeds from a clean
event log and exactly one promoted event results. -/
theorem promote_records_one_event_witness :
    promoted_events_for sample_store 10 = []
    ∧ (promoted_events_for (promote_version 1 10 sample_store).2 10).length = 1 :=
  ⟨by decide,
   (promote_records_one_event 1 10 sample_store (by decide) (by decide)).1⟩

/-- C5: a request whose Authorization header is missing or lacks the
Bearer marker, whose token the decoder rejects, or whose decoded claims
carry no usable tenant_id, is answered with a 401 error while the
resolver has issued no statement to the backing store. -/
theorem unauthenticated_rejected_before_store (authorization : Option String)
    (decode : String → TokenDecode)
    (hbad : authorization = none
      ∨ ∃ a, authorization = some a ∧
          (has_bearer_marker a = false
           ∨ (∃ e, decode (bearer_token a) = TokenDecode.failure e)
           ∨ decode (bearer_token a) = TokenDecode.claims none
           ∨ decode (bearer_token a) = TokenDecode.claims (some ""))) :
    (get_current_tenant authorization decode).1.isOk = false
    ∧ (∃ m, (get_current_tenant authorization decode).1
        = Except.error { code := 401, message := m })
    ∧ (get_current_tenant authorization decode).2 = [] := by
  rcases hbad with hnone | ⟨a, ha, hcase⟩
  · subst hnone
    exact ⟨rfl, ⟨"Missing or invalid authorization", rfl⟩, rfl⟩
  · subst ha
    rcases hcase with hmark | ⟨e, hfail⟩ | hmiss | hempty
    · unfold get_current_tenant
      simp [hmark, Except.isOk, Except.toBool]
    · unfold get_current_tenant
      by_cases hm : has_bearer_marker a
      · simp [hm, hfail, Except.isOk, Except.toBool]
      · simp [hm, Except.isOk, Except.toBool]
    · unfold get_current_tenant
      by_cases hm : has_bearer_marker a
      · simp [hm, hmiss, Except.isOk, Except.toBool]
      · simp [hm, Except.isOk, Except.toBool]
    · unfold get_current_tenant
      by_cases hm : has_bearer_marker a
      · simp [hm, hempty, Except.isOk, Except.toBool]
      · simp [hm, Except.isOk, Except.toBool]

/-- C5 witness: the missing-header case is rejected with 401 and no store
statement. -/
theorem unauthenticated_rejected_before_store_witness :
    (get_current_tenant none failing_decode).1.isOk = false
    ∧ (get_current_tenant none failing_decode).2 = [] :=
  ⟨(unauthenticated_rejected_before_store none failing_decode (Or.inl rfl)).1,
   (unauthenticated_rejected_before_store none failing_decode (Or.inl rfl)).2.2⟩

/-- C6 counterexample: creating a version under template id 999, which no
row of the store carries, fails with the generic 500 response of an
unhandled store rejection — not with a 404 NotFound — while no version row
is created. -/
theorem create_version_missing_template_counterexample :
    (create_version 1 999 11 "v2" "h2" sample_store).1
      = Except.error internal_server_error
    ∧ internal_server_error.code = 500
    ∧ internal_server_error.code ≠ 404
    ∧ (create_version 1 999 11 "v2" "h2" sample_store).2 = sample_store := by
  decide

/-- C6 amended: a create-version request naming a template id with no row
visible to the caller (nonexistent or foreign-tenant) fails — surfaced as
the generic 500 server error of the unhandled constraint violation rather
than NotFound — and leaves the store unchanged. -/
theorem create_version_missing_template_amended (tenant template_id vid : Nat)
    (lbl hsh : String) (s : Store)
    (hmiss : ∀ tr ∈ s.templates, tr.template_id = template_id →
        tr.tenant_id ≠ tenant) :
    create_version tenant template_id vid lbl hsh s
      = (Except.error internal_server_error, s) := by
  unfold create_version store_insert_version
  have hany : (visible_templates tenant s).any
      (fun t => t.template_id == template_id) = false := by
    rw [List.any_eq_false]
    intro x hx
    have h2 : x ∈ s.templates ∧ x.tenant_id = tenant := by
      simpa [visible_templates, List.mem_filter] using hx
    intro habs
    have hxid : x.template_id = template_id := by simpa using habs
    exact hmiss x h2.1 hxid h2.2
  simp [hany]

/-- C6 witness for the amended claim: the concrete missing-template
request yields the 500 response and the unchanged store. -/
theorem create_version_missing_template_witness :
    create_version 1 999 11 "v2" "h2" sample_store
      = (Except.error internal_server_error, sample_store) :=
  create_version_missing_template_amended 1 999 11 "v2" "h2" sample_store
    (by decide)

/-- C7: with no lock between the status read and the status write, the
interleaving that lets both workers read before either writes drives two
concurrent promote calls on the same candidate version to two successes
and two recorded AgentVersionPromoted events. -/
theorem concurrent_promote_double_success :
    (run_sched 1 10 race_schedule
        (PromotePC.start, PromotePC.start, sample_store)).1
      = PromotePC.finished PromoteOutcome.ok
    ∧ (run_sched 1 10 race_schedule
        (PromotePC.start, PromotePC.start, sample_store)).2.1
      = PromotePC.finished PromoteOutcome.ok
    ∧ (promoted_events_for
        (run_sched 1 10 race_schedule
          (PromotePC.start, PromotePC.start, sample_store)).2.2 10).length
      = 2 := by
  decide

/-- C8: the instance-status update echoes the requested status back and
overwrites the status of the caller-owned row with the requested value,
whatever the prior status was; no status value is refused. -/
theorem update_instance_unconditioned (tenant iid : Nat) (new_status : String)
    (s : Store) (ir : InstanceRow) (hmem : ir ∈ s.instances)
    (hid : ir.instance_id = iid) (ht : ir.tenant_id = tenant) :
    (update_instance tenant iid new_status s).1 = (iid, new_status)
    ∧ { ir with status := new_status }
        ∈ (update_instance tenant iid new_status s).2.instances
    ∧ (∀ w ∈ (update_instance tenant iid new_status s).2.instances,
        w.instance_id = iid → w.tenant_id = tenant →
          w.status = new_status) := by
  refine ⟨rfl, ?_, ?_⟩
  · have hmm := List.mem_map_of_mem (fun i : InstanceRow =>
      if i.instance_id == iid && i.tenant_id == tenant then
        { i with status := new_status } else i) hmem
    simpa [hid, ht, update_instance] using hmm
  · intro w hw hwid hwt
    simp only [update_instance, List.mem_map] at hw
    obtain ⟨u, hu, hequ⟩ := hw
    by_cases hc : (u.instance_id == iid && u.tenant_id == tenant) = true
    · rw [if_pos hc] at hequ
      rw [← hequ]
    · rw [if_neg hc] at hequ
      subst hequ
      simp [hwid, hwt] at hc

/-- C8 witness: the sample instance accepts the quarantined status. -/
theorem update_instance_unconditioned_witness :
    sample_instance ∈ sample_store.instances
    ∧ (update_instance 1 30 "quarantined" sample_store).1
        = (30, "quarantined") :=
  ⟨by decide,
   (update_instance_unconditioned 1 30 "quarantined" sample_store
      sample_instance (by decide) (by decide) (by decide)).1⟩

/-- An UPDATE whose predicate matches no row maps every row to itself. -/
theorem update_keeps_unmatched_rows (tenant iid : Nat) (st : String) :
    ∀ l : List InstanceRow, (∀ ir ∈ l, ir.instance_id ≠ iid) →
      l.map (fun i =>
        if i.instance_id == iid && i.tenant_id == tenant then
          { i with status := st } else i) = l := by
  intro l
  induction l with
  | nil => intro _; rfl
  | cons hd tl ih =>
    intro hnone
    have hhd : hd.instance_id ≠ iid := hnone hd (List.mem_cons_self hd tl)
    have hcond : (hd.instance_id == iid && hd.tenant_id == tenant) = false := by
      simp [hhd]
    simp only [List.map_cons, hcond, Bool.false_eq_true, if_false]
    rw [ih (fun ir hir => hnone ir (List.mem_cons_of_mem hd hir))]

/-- C10: an instance-status update naming an id no row carries does not
fail: it answers with the echo of the requested status while the store is
left exactly as it was. -/
theorem update_instance_missing_id (tenant iid : Nat) (st : String) (s : Store)
    (h : ∀ ir ∈ s.instances, ir.instance_id ≠ iid) :
    (update_instance tenant iid st s).1 = (iid, st)
    ∧ (update_instance tenant iid st s).2 = s := by
  refine ⟨rfl, ?_⟩
  unfold update_instance
  rw [update_keeps_unmatched_rows tenant iid st s.instances h]

/-- C10 witness: updating the absent instance id 77 echoes success and
changes nothing. -/
theorem update_instance_missing_id_witness :
    (update_instance 1 77 "paused" sample_store).1 = (77, "paused")
    ∧ (update_instance 1 77 "paused" sample_store).2 = sample_store :=
  update_instance_missing_id 1 77 "paused" sample_store (by decide)

/-- C9 counterexample: for a syntactically well-formed Bearer header whose
token the decoder rejects, the surfaced 401 message is the fixed marker
with the internal decoder exception text appended verbatim, so the
decoder detail is a suffix of the response message. -/
theorem error_detail_leaked :
    (get_current_tenant (some "Bearer deadbeef") failing_decode).1
      = Except.error { code := 401,
                       message := "Invalid token: " ++ "Invalid crypto padding" }
    ∧ ("Invalid crypto padding".data).isSuffixOf
        ("Invalid token: " ++ "Invalid crypto padding").data = true := by
  decide

/-- C9 amended: every failure a handler raises carries a stable status
code with a fixed message — 401 with the fixed header message or the
invalid-token message, 404 not-found, 400 precondition or gate — though
the invalid-token message carries the decoder detail appended. -/
theorem handler_errors_stable (tenant vid pid : Nat) (s : Store)
    (authorization : Option String) (decode : String → TokenDecode) :
    (∀ err, (get_current_tenant authorization decode).1 = Except.error err →
        err.code = 401 ∧ (err.message = "Missing or invalid authorization"
          ∨ ∃ e, err.message = "Invalid token: " ++ e))
    ∧ (∀ err, get_version tenant vid s = Except.error err →
        err = version_not_found_err)
    ∧ (∀ err, get_policy tenant pid s = Except.error err →
        err = policy_not_found_err)
    ∧ (∀ err, (promote_version tenant vid s).1 = Except.error err →
        err = precondition_failed_err ∨ err = gate_failed_err) := by
  refine ⟨?_, ?_, ?_, ?_⟩
  · intro err herr
    unfold get_current_tenant at herr
    cases authorization with
    | none =>
      have heq : ({ code := 401, message := "Missing or invalid authorization" }
          : ApiError) = err := by simpa using herr
      rw [← heq]
      exact ⟨rfl, Or.inl rfl⟩
    | some a =>
      by_cases hm : has_bearer_marker a
      · cases hdec : decode (bearer_token a) with
        | failure e =>
          have heq : ({ code := 401, message := "Invalid token: " ++ e }
              : ApiError) = err := by simpa [hm, hdec] using herr
          rw [← heq]
          exact ⟨rfl, Or.inr ⟨e, rfl⟩⟩
        | claims tid =>
          cases tid with
          | none =>
            have heq : ({ code := 401, message := "Invalid token: 401: Token missing tenant_id" } : ApiError) = err := by
              simpa [hm, hdec] using herr
            rw [← heq]
            refine ⟨rfl, Or.inr ⟨"401: Token missing tenant_id", by decide⟩⟩
          | some t =>
            by_cases hempty : t = ""
            · have heq : ({ code := 401, message := "Invalid token: 401: Token missing tenant_id" } : ApiError) = err := by
                simpa [hm, hdec, hempty] using herr
              rw [← heq]
              refine ⟨rfl, Or.inr ⟨"401: Token missing tenant_id", by decide⟩⟩
            · exfalso
              simp [hm, hdec, hempty] at herr
      · have heq : ({ code := 401, message := "Missing or invalid authorization" }
            : ApiError) = err := by simpa [hm] using herr
        rw [← heq]
        exact ⟨rfl, Or.inl rfl⟩
  · intro err herr
    unfold get_version at herr
    cases hfind : (visible_versions tenant s).find? (fun v => v.version_id == vid) with
    | none =>
      rw [hfind] at herr
      have heq : version_not_found_err = err := by simpa using herr
      exact heq.symm
    | some v =>
      rw [hfind] at herr
      exact absurd herr (by simp)
  · intro err herr
    unfold get_policy at herr
    cases hfind : (visible_policies tenant s).find? (fun p => p.policy_id == pid) with
    | none =>
      rw [hfind] at herr
      have heq : policy_not_found_err = err := by simpa using herr
      exact heq.symm
    | some q =>
      rw [hfind] at herr
      exact absurd herr (by simp)
  · intro err herr
    unfold promote_version at herr
    cases hfind : (visible_versions tenant s).find? (fun v => v.version_id == vid) with
    | none =>
      rw [hfind] at herr
      have heq : precondition_failed_err = err := by simpa using herr
      exact Or.inl heq.symm
    | some v =>
      rw [hfind] at herr
      by_cases hc : v.release_status = "candidate"
      · by_cases hg : passing_evals s vid = []
        · have heq : gate_failed_err = err := by simpa [hc, hg] using herr
          exact Or.inr heq.symm
        · exfalso
          simp [hc, hg] at herr
      · have heq : precondition_failed_err = err := by simpa [hc] using herr
        exact Or.inl heq.symm

/-- C9 amended witness: the missing-header rejection is one of the stable
kinds with status code 401. -/
theorem handler_errors_stable_witness :
    (get_current_tenant none failing_decode).1
      = Except.error { code := 401, message := "Missing or invalid authorization" }
    ∧ ({ code := 401, message := "Missing or invalid authorization" }
        : ApiError).code = 401 :=
  ⟨by decide,
   ((handler_errors_stable 1 10 40 sample_store none failing_decode).1
      { code := 401, message := "Missing or invalid authorization" }
      (by decide)).1⟩
